import Mathlib

/-!
Verification of the ppi retailer-scraping pipeline against its design spec.

The definitions below are a shallow embedding of `src/ppi/config.py`,
`src/ppi/selectors.py`, `src/ppi/io.py` and `src/ppi/runner.py`.
YAML/JSON-like configuration values are modelled by `YVal`; Python
exceptions are modelled by the `Err` type and `Except Err`-valued
functions; the Playwright page handle is modelled by a pure `Page`
record plus an explicit trace of driver effects.
-/

namespace PPI

/-- A YAML/JSON-like dynamic value, as produced by `yaml.safe_load` and
consumed by the configuration and runner code. Mappings are association
lists in insertion order, matching Python dict iteration order. -/
inductive YVal where
  | null : YVal
  | b (v : Bool) : YVal
  | n (v : Int) : YVal
  | s (v : String) : YVal
  | list (xs : List YVal) : YVal
  | dict (kvs : List (String × YVal)) : YVal

/-- Python exceptions raised by the embedded fragments. `notFound`
models `ppi.runner.NotFoundError` (a `ValueError` subclass carrying an
optional HTTP status); `timeout` models `PlaywrightTimeoutError`. -/
inductive Err where
  | valueError (msg : String) : Err
  | keyError (key : String) : Err
  | typeError (msg : String) : Err
  | timeout (msg : String) : Err
  | notFound (msg : String) (httpStatus : Option Int) : Err
deriving Repr, DecidableEq

/-- `str(exc)` as used for the error column of the output row. -/
def Err.pyMessage : Err → String
  | .valueError m => m
  | .keyError k => "\x27" ++ k ++ "\x27"
  | .typeError m => m
  | .timeout m => m
  | .notFound m _ => m

/-- Python `v == "lit"` for a dynamic value against a string literal:
true exactly when `v` is that string (Python equality across types is
`False`, never an error). -/
def YVal.eqS : YVal → String → Bool
  | .s v, t => v == t
  | _, _ => false

/-- Python truthiness (`bool(v)`) for the value kinds the code uses. -/
def YVal.truthy : YVal → Bool
  | .null => false
  | .b v => v
  | .n v => v != 0
  | .s v => v != ""
  | .list xs => !xs.isEmpty
  | .dict kvs => !kvs.isEmpty

/-- First-match association-list lookup, i.e. Python dict lookup. -/
def lookupKV : List (String × YVal) → String → Option YVal
  | [], _ => none
  | (k, v) :: rest, key => if k = key then some v else lookupKV rest key

/-- `d[key] = v` on a dict given as an association list: replaces the
first occurrence in place, appends when absent (Python insertion
order). -/
def setKV : List (String × YVal) → String → YVal → List (String × YVal)
  | [], key, v => [(key, v)]
  | (k, w) :: rest, key, v =>
    if k = key then (key, v) :: rest else (k, w) :: setKV rest key v

/-- `d.get(key)`: `none` when the key is absent; raises when the
receiver is not a mapping (Python `AttributeError`). -/
def dictGet (v : YVal) (key : String) : Except Err (Option YVal) :=
  match v with
  | .dict kvs => .ok (lookupKV kvs key)
  | _ => .error (.typeError ("object has no attribute \x27get\x27: " ++ key))

/-- `d.get(key, default)`. -/
def dictGetD (v : YVal) (key : String) (dflt : YVal) : Except Err YVal :=
  (dictGet v key).map (fun o => o.getD dflt)

/-- `d[key]`: `KeyError` when absent, `TypeError` when the receiver is
not subscriptable by a string. -/
def dictItem (v : YVal) (key : String) : Except Err YVal :=
  match v with
  | .dict kvs =>
    match lookupKV kvs key with
    | some x => .ok x
    | none => .error (.keyError key)
  | _ => .error (.typeError "value is not subscriptable by a string key")

/-- `d.get(key, default)` on a value already known to be a mapping
(used only right after a successful `dictItem`/`dictGet` on the same
value); non-mappings just give the default. -/
def dictGetDTot (v : YVal) (key : String) (dflt : YVal) : YVal :=
  match v with
  | .dict kvs => (lookupKV kvs key).getD dflt
  | _ => dflt

/-- `{**a, **b}` for mappings: keys of `a` in order with values
overridden by `b`, then the keys only in `b` in their order. -/
def mergeKV (a b : List (String × YVal)) : List (String × YVal) :=
  b.foldl (fun acc kv => setKV acc kv.1 kv.2) a

/-- `str(v)` for the scalar values the embedded fragments format into
messages and URLs; containers never reach string formatting in the
fragments covered here. -/
def pyStr : YVal → String
  | .null => "None"
  | .b true => "True"
  | .b false => "False"
  | .n v => toString v
  | .s v => v
  | .list _ => "[container]"
  | .dict _ => "\x7bcontainer\x7d"

/-- The characters Python `str.strip()` removes (ASCII whitespace plus
the no-break space, the only Unicode whitespace appearing in the
data this code handles). -/
def isPySpace (c : Char) : Bool :=
  c = ' ' || c = '\t' || c = '\n' || c = '\r' || c = '\x0b' || c = '\x0c' || c = '\u00A0'

/-- Python `str.strip()`. -/
def pyStrip (s : String) : String :=
  String.mk (((s.toList.dropWhile isPySpace).reverse.dropWhile isPySpace).reverse)

/-- Split a string at the first occurrence of a (non-empty) separator:
Python `s.split(sep, 1)` when `sep in s`, else `none`. -/
def splitOnceCh (pat : List Char) : List Char → Option (List Char × List Char)
  | [] => none
  | c :: rest =>
    if pat.isPrefixOf (c :: rest) then some ([], (c :: rest).drop pat.length)
    else
      match splitOnceCh pat rest with
      | some (pre, post) => some (c :: pre, post)
      | none => none

def splitOnce (s pat : String) : Option (String × String) :=
  (splitOnceCh pat.toList s.toList).map (fun p => (String.mk p.1, String.mk p.2))

/-- Python `s.rstrip(c)` for a single strip character. -/
def rstripChar (s : String) (c : Char) : String :=
  String.mk ((s.toList.reverse.dropWhile (· = c)).reverse)

/-- Python `s.endswith(pat)`. -/
def endsWithStr (s pat : String) : Bool :=
  pat.toList.isSuffixOf s.toList

/-- Replace every occurrence of a non-empty pattern, left to right
(Python `s.replace(pat, rep)`). The fuel argument is the remaining
input length; each step consumes at least one character, so the
initial length is always enough. -/
def replaceAllAux (pat rep : List Char) : Nat → List Char → List Char
  | 0, l => l
  | _, [] => []
  | fuel + 1, c :: rest =>
    if pat.isPrefixOf (c :: rest) && !pat.isEmpty then
      rep ++ replaceAllAux pat rep fuel ((c :: rest).drop pat.length)
    else c :: replaceAllAux pat rep fuel rest

def replaceAll (s pat rep : String) : String :=
  String.mk (replaceAllAux pat.toList rep.toList s.toList.length s.toList)

/-! ## Page-driver model

The Playwright page handle is an external collaborator; it is modelled
by a pure record. A selector resolves to at most one first-match
element (`LocatorData`); navigation outcome and wait outcomes are
fixed per page. Driver calls are additionally logged as `Effect`s by
the flow interpreter so that claims about *when* navigation and step
execution happen can be stated. -/

/-- The first matching element for one selector: `present` is
`count() > 0` of the locator, `innerText` its rendered text
(`none` models a driver returning no text), `parentText` the rendered
text of `locator("..")`, `attrs` the attributes of the element
(`get_attribute` returns `none` for an absent attribute). -/
structure LocatorData where
  present : Bool := false
  innerText : Option String := none
  parentText : Option String := none
  attrs : List (String × String) := []

/-- Pure model of one Playwright page: the HTTP status its navigation
responds with (`none` models `goto` returning `None`), which
`wait_until` policies time out on `goto`, which `wait_for_selector`
calls succeed, and the selector → first-element map. -/
structure Page where
  response : Option Int := some 200
  gotoTimesOut : YVal → Bool := fun _ => false
  waitOk : YVal → Bool := fun _ => true
  locators : List (String × LocatorData) := []

/-- `page.locator(sel)` / `page.locator(sel).first`: absent selectors
give an element with `count() = 0`. -/
def Page.locator (p : Page) (sel : String) : LocatorData :=
  (p.locators.find? (fun kv => kv.1 == sel)).elim {} Prod.snd

/-- One observable driver call made by the runner. -/
inductive Effect where
  | gotoCall (url : String) (waitUntil : YVal) (timeoutMs : YVal) : Effect
  | waitForSelector (selector : YVal) (timeoutMs : YVal) (state : YVal) : Effect
  | waitForTimeout (ms : YVal) : Effect

/-! ## `src/ppi/selectors.py` -/

/-- `SelectorMode` from `selectors.py`. -/
inductive SelectorMode where
  | text : SelectorMode
  | parent_text : SelectorMode
  | attr : SelectorMode
deriving DecidableEq

/-- `SelectorSpec` dataclass from `selectors.py`. -/
structure SelectorSpec where
  selector : String
  mode : SelectorMode
  attr : Option String := none

/-- `parse_selector`: recognise the `::attr(name)` and `::parent_text`
modifiers on a raw selector string. -/
def parse_selector (raw : String) : SelectorSpec :=
  let sel := pyStrip raw
  match splitOnce sel "::attr(" with
  | some (selector, rest) =>
    { selector := selector, mode := .attr, attr := some (rstripChar rest ')') }
  | none =>
    if endsWithStr sel "::parent_text" then
      { selector := replaceAll sel "::parent_text" "", mode := .parent_text }
    else
      { selector := sel, mode := .text }

/-- `normalize_extracted_text`: collapse no-break spaces to plain
spaces and trim; `None` passes through. -/
def normalize_extracted_text : Option String → Option String
  | none => none
  | some v => some (pyStrip (String.mk (v.toList.map (fun c => if c = '\u00A0' then ' ' else c))))

/-- The raw resolution of one parsed selector against the page:
`inner_text()`, parent `inner_text()`, or `get_attribute(...)`,
before normalization; `none` when the driver returns no value. -/
def resolveRaw (page : Page) (spec : SelectorSpec) : Option String :=
  match spec.mode with
  | .text => (page.locator spec.selector).innerText
  | .parent_text => (page.locator spec.selector).parentText
  | .attr => ((page.locator spec.selector).attrs.find?
      (fun kv => kv.1 == spec.attr.getD "")).map Prod.snd

/-- `first_value`: walk the selector priority list in order, skip
selectors with no matching element, return the first normalized value
that is non-null and non-empty. -/
def first_value (page : Page) : List String → Option String
  | [] => none
  | raw :: rest =>
    let spec := parse_selector raw
    let loc := page.locator spec.selector
    if !loc.present then first_value page rest
    else
      let value := normalize_extracted_text (resolveRaw page spec)
      match value with
      | some v => if v != "" then some v else first_value page rest
      | none => first_value page rest

/-! ## String formatting (`str.format` as used by `build_url`) -/

/-- First-match lookup in the keyword arguments of `str.format`. -/
def lookupS : List (String × String) → String → Option String
  | [], _ => none
  | (k, v) :: rest, key => if k = key then some v else lookupS rest key

mutual

/-- `template.format(**vars)` restricted to plain `{name}` fields, the
only form the retailer URL templates use: copy literal characters,
substitute each field from `vars`, `KeyError` on an unknown field
name. -/
def fmtAux (vars : List (String × String)) : List Char → Except Err String
  | [] => .ok ""
  | '{' :: rest => fmtVar vars [] rest
  | c :: rest =>
    match fmtAux vars rest with
    | .ok t => .ok (String.mk [c] ++ t)
    | .error e => .error e

/-- Read one `{name}` field of the template. -/
def fmtVar (vars : List (String × String)) (acc : List Char) :
    List Char → Except Err String
  | [] => .error (.valueError "unterminated replacement field in format string")
  | '}' :: rest =>
    match lookupS vars (String.mk acc.reverse) with
    | some v =>
      match fmtAux vars rest with
      | .ok t => .ok (v ++ t)
      | .error e => .error e
    | none => .error (.keyError (String.mk acc.reverse))
  | c :: rest => fmtVar vars (c :: acc) rest

end

/-- `template.format(base_url=..., **context)`. -/
def formatTemplate (template : String) (vars : List (String × String)) :
    Except Err String :=
  fmtAux vars template.toList

/-! ## `src/ppi/runner.py`: price normalization -/

/-- The match of the regex `\d+(?:\.\d+)?` when anchored at a leading
digit: a maximal digit run, then optionally a dot followed by at least
one digit (again maximal). -/
def numToken (l : List Char) : List Char :=
  let ds := l.takeWhile Char.isDigit
  let after := l.dropWhile Char.isDigit
  match after with
  | '.' :: d :: _ =>
    if d.isDigit then ds ++ '.' :: (after.drop 1).takeWhile Char.isDigit else ds
  | _ => ds

/-- `re.search` of `_num_re = (\d+(?:\.\d+)?)`: the leftmost numeric
token, or `none` when the text holds no digit. -/
def numSearch : List Char → Option (List Char)
  | [] => none
  | c :: rest => if c.isDigit then some (numToken (c :: rest)) else numSearch rest

/-- `normalize_price_text` from `runner.py`: falsy input (None or the
empty string) maps to None; otherwise search the comma-stripped,
trimmed text for the first numeric token, falling back to the trimmed
text itself. -/
def normalize_price_text : Option String → Option String
  | none => none
  | some v =>
    if v = "" then none
    else
      let stripped := pyStrip v
      match numSearch (String.mk (stripped.toList.filter (· ≠ ','))).toList with
      | some tok => some (String.mk tok)
      | none => some stripped

/-! ## `src/ppi/config.py` -/

/-- `_legacy_extract_fields`: build extract fields from the legacy
`pricing` / `discount` / `unit_price` blocks of a retailer config. -/
def _legacy_extract_fields (ret_cfg : YVal) : Except Err (List (String × YVal)) := do
  let pricing ← dictGetD ret_cfg "pricing" (.dict [])
  let final_price ← dictGetD pricing "final_price" (.dict [])
  let sp ← dictGetD final_price "selectors_priority" .null
  let fpFields : List (String × YVal) :=
    if sp.truthy then
      [("final_price", .dict [("selectors_priority", sp), ("optional", .b true)])]
    else []
  let discount ← dictGetD ret_cfg "discount" .null
  let discFields : List (String × YVal) ←
    if discount.truthy then do
      let dsel ← dictGetD discount "selector" .null
      if dsel.truthy then do
        let dopt ← dictGetD discount "optional" (.b true)
        let dover ← dictGetD discount "discounted_price_override" (.b false)
        pure [("discount", .dict
          [("selector", dsel), ("optional", .b dopt.truthy),
           ("discounted_price_override", .b dover.truthy)])]
      else pure []
    else pure []
  let unit_price ← dictGetD ret_cfg "unit_price" .null
  let unitFields : List (String × YVal) ←
    if unit_price.truthy then do
      let usel ← dictGetD unit_price "selector" .null
      if usel.truthy then do
        let uopt ← dictGetD unit_price "optional" (.b true)
        pure [("unit_price", .dict [("selector", usel), ("optional", .b uopt.truthy)])]
      else pure []
    else pure []
  pure (fpFields ++ discFields ++ unitFields)

/-- `_validate_extract_fields`: the `fields` of an extract step must be a
non-empty mapping whose every entry is a mapping declaring exactly one
of `selector` / `selectors_priority`. -/
def _validate_extract_fields (retailer_id : String) (fields : Option YVal) :
    Except Err Unit := do
  match fields with
  | some (.dict kvs) =>
    if kvs.isEmpty then
      .error (.valueError ("Retailer \x27" ++ retailer_id ++
        "\x27 extract.fields must be a non-empty mapping"))
    else
      validateSpecs retailer_id kvs
  | _ =>
    .error (.valueError ("Retailer \x27" ++ retailer_id ++
      "\x27 extract.fields must be a non-empty mapping"))
where
  /-- The per-field loop of `_validate_extract_fields`. -/
  validateSpecs (retailer_id : String) :
      List (String × YVal) → Except Err Unit
    | [] => .ok ()
    | (field_name, spec) :: rest =>
      match spec with
      | .dict _ => do
        let hasSel := (dictGetDTot spec "selector" .null).truthy
        let hasPri := (dictGetDTot spec "selectors_priority" .null).truthy
        if hasSel = hasPri then
          .error (.valueError ("Retailer \x27" ++ retailer_id ++ "\x27 field \x27" ++
            field_name ++ "\x27 must define exactly one of selector or selectors_priority"))
        else
          validateSpecs retailer_id rest
      | _ =>
        .error (.valueError ("Retailer \x27" ++ retailer_id ++ "\x27 field \x27" ++
          field_name ++ "\x27 must be a mapping"))

/-- The step-validation loop of `normalize_retailers`: check every
action tag, validate extract fields, and report whether an `extract`
step is present. -/
def checkSteps (retailer_id : String) : List YVal → Except Err Bool
  | [] => .ok false
  | step :: rest => do
    let action := (← dictGet step "action").getD .null
    if !(action.eqS "goto" || action.eqS "wait_for_selector" ||
         action.eqS "wait_for_timeout" || action.eqS "extract") then
      .error (.valueError ("Retailer \x27" ++ retailer_id ++
        "\x27 has unsupported action \x27" ++ pyStr action ++ "\x27"))
    else do
      if action.eqS "extract" then
        _validate_extract_fields retailer_id ((← dictGet step "fields"))
      let restHas ← checkSteps retailer_id rest
      pure (action.eqS "extract" || restHas)

/-- Normalize one retailer entry: the per-retailer body of
`normalize_retailers`. -/
def normalizeOne (retailer_id : String) (ret_cfg : YVal) : Except Err YVal := do
  let flow := (← dictGet ret_cfg "flow").getD .null
  match flow with
  | .list steps => do
    let has_extract ← checkSteps retailer_id steps
    if has_extract then
      pure ret_cfg
    else do
      let legacy_fields ← _legacy_extract_fields ret_cfg
      if legacy_fields.isEmpty then
        pure ret_cfg
      else
        match ret_cfg with
        | .dict kvs =>
          pure (.dict (setKV kvs "flow" (.list (steps ++
            [.dict [("action", .s "extract"), ("fields", .dict legacy_fields)]]))))
        | _ => pure ret_cfg
  | _ =>
    .error (.valueError ("Retailer \x27" ++ retailer_id ++ "\x27 flow must be a list"))

/-- `normalize_retailers`: validate the flow of every retailer and append
the synthesized legacy extract step where needed; pure on a deep copy
of the input. -/
def normalize_retailers (retailers : YVal) : Except Err YVal :=
  match retailers with
  | .dict kvs => (normalizeAll kvs).map .dict
  | _ => .error (.typeError "retailers config must be a mapping")
where
  /-- The retailer loop, in mapping order, stopping at the first error. -/
  normalizeAll : List (String × YVal) → Except Err (List (String × YVal))
    | [] => .ok []
    | (rid, cfg) :: rest => do
      let cfg' ← normalizeOne rid cfg
      let rest' ← normalizeAll rest
      pure ((rid, cfg') :: rest')

/-! ## `src/ppi/runner.py`: flow interpreter -/

/-- Require the YAML list items that reach `page.locator` /
`first_value` to be strings, as the real driver does. -/
def asStrList : List YVal → Except Err (List String)
  | [] => .ok []
  | .s v :: rest => (asStrList rest).map (fun l => v :: l)
  | _ :: _ => .error (.typeError "selector must be a string")

/-- The keyword-argument environment of
`template.format(base_url=ret_cfg["base_url"], **context)`. -/
def ctxVars : YVal → List (String × String)
  | .dict kvs => kvs.map (fun kv => (kv.1, pyStr kv.2))
  | _ => []

/-- The `for step in flow` loop of `build_url`: find the first `goto`
step and format its URL template. -/
def firstGotoUrl (ret_cfg ctx : YVal) : List YVal → Except Err String
  | [] => .error (.valueError "No \x27goto\x27 step in flow")
  | step :: rest => do
    let action ← dictItem step "action"
    if action.eqS "goto" then do
      let template ← dictItem step "url"
      let base ← dictItem ret_cfg "base_url"
      match template with
      | .s t => formatTemplate t (("base_url", pyStr base) :: ctxVars ctx)
      | _ => .error (.typeError "url template must be a string")
    else firstGotoUrl ret_cfg ctx rest

/-- `build_url`: product URL from the first `goto` step of the retailer flow and its
template. Iterating a non-list `flow` mirrors Python: strings and
mappings iterate (to characters / keys, which then fail as step
subscripts), other scalars are not iterable. -/
def build_url (ret_cfg ctx : YVal) : Except Err String := do
  let flow ← dictItem ret_cfg "flow"
  match flow with
  | .list steps => firstGotoUrl ret_cfg ctx steps
  | .s v =>
    if v = "" then .error (.valueError "No \x27goto\x27 step in flow")
    else .error (.typeError "string indices must be integers")
  | .dict kvs =>
    if kvs.isEmpty then .error (.valueError "No \x27goto\x27 step in flow")
    else .error (.typeError "string indices must be integers")
  | _ => .error (.typeError "flow is not iterable")

/-- The step loop of `execute_flow`: `goto` steps are skipped, waits
call the driver, anything else raises
`ValueError("Unsupported action: ...")`. The second component is the
trace of driver calls made. -/
def execSteps (page : Page) : List YVal → Except Err Unit × List Effect
  | [] => (.ok (), [])
  | step :: rest =>
    match dictItem step "action" with
    | .error e => (.error e, [])
    | .ok action =>
      if action.eqS "goto" then execSteps page rest
      else if action.eqS "wait_for_selector" then
        match dictItem step "selector" with
        | .error e => (.error e, [])
        | .ok sel =>
          let tms := dictGetDTot step "timeout_ms" (.n 30000)
          let st := dictGetDTot step "state" (.s "visible")
          if page.waitOk sel then
            let (r, tr) := execSteps page rest
            (r, .waitForSelector sel tms st :: tr)
          else
            (.error (.timeout "Timeout exceeded"), [.waitForSelector sel tms st])
      else if action.eqS "wait_for_timeout" then
        let tms := dictGetDTot step "timeout_ms" (.n 1000)
        let (r, tr) := execSteps page rest
        (r, .waitForTimeout tms :: tr)
      else
        (.error (.valueError ("Unsupported action: " ++ pyStr action)), [])

/-- `execute_flow`: run flow actions after the initial page goto. -/
def execute_flow (page : Page) (flow : YVal) : Except Err Unit × List Effect :=
  match flow with
  | .list steps => execSteps page steps
  | .s v =>
    if v = "" then (.ok (), [])
    else (.error (.typeError "string indices must be integers"), [])
  | .dict kvs =>
    if kvs.isEmpty then (.ok (), [])
    else (.error (.typeError "string indices must be integers"), [])
  | _ => (.error (.typeError "flow is not iterable"), [])

/-- The selector loop of `detect_not_found_selector`. -/
def findNotFound (page : Page) : List YVal → Except Err (Option String)
  | [] => .ok none
  | .s v :: rest =>
    if (page.locator v).present then .ok (some v) else findNotFound page rest
  | _ :: _ => .error (.typeError "selector must be a string")

/-- `detect_not_found_selector`: the first matched `not_found`
selector, for soft-404 detection. -/
def detect_not_found_selector (page : Page) (ret_cfg : YVal) :
    Except Err (Option String) := do
  let nf ← dictGetD ret_cfg "not_found" (.dict [])
  let sels ← dictGetD nf "any_selectors" (.list [])
  match sels with
  | .list ss => findNotFound page ss
  | .s v => findNotFound page (v.toList.map (fun c => .s (String.mk [c])))
  | .dict kvs => findNotFound page (kvs.map (fun kv => .s kv.1))
  | _ => .error (.typeError "not iterable")

/-- The extraction tail of `run_one` (lines 105-134): build the output
record and fill it from the legacy `pricing` / `discount` /
`unit_price` blocks. For a present element `inner_text()` is a string in
the real driver; a `none` here stays `none`. -/
def legacyExtract (page : Page) (ret_cfg : YVal) (url now : String)
    (http_status : Option Int) : Except Err YVal := do
  let pricing ← dictGetD ret_cfg "pricing" (.dict [])
  let fp ← dictGetD pricing "final_price" (.dict [])
  let sp ← dictGetD fp "selectors_priority" (.list [])
  let final_price0 : YVal ←
    if sp.truthy then
      match sp with
      | .list sel_items => do
        let sels ← asStrList sel_items
        pure (((normalize_price_text (first_value page sels)).map YVal.s).getD .null)
      | _ => .error (.typeError "selectors_priority is not a list of strings")
    else pure .null
  let disc ← dictGetD ret_cfg "discount" .null
  let (discount, discount_flag, final_price) ←
    if disc.truthy then do
      let dsel ← dictGetD disc "selector" .null
      if dsel.truthy then do
        match dsel with
        | .s selStr => do
          let loc := page.locator selStr
          let disc_text : Option String :=
            if loc.present then loc.innerText.map pyStrip else none
          let dflag := match disc_text with
            | some t => t != ""
            | none => false
          let dover ← dictGetD disc "discounted_price_override" (.b false)
          let fp' : YVal :=
            if dflag && dover.truthy then
              (((normalize_price_text disc_text).map YVal.s).getD .null)
            else final_price0
          pure ((disc_text.map YVal.s).getD .null, dflag, fp')
        | _ => .error (.typeError "selector must be a string")
      else pure (.null, false, final_price0)
    else pure (.null, false, final_price0)
  let unit ← dictGetD ret_cfg "unit_price" .null
  let unit_price_text : YVal ←
    if unit.truthy then do
      let usel ← dictGetD unit "selector" .null
      if usel.truthy then
        match usel with
        | .s selStr =>
          let loc := page.locator selStr
          pure (if loc.present then ((loc.innerText.map pyStrip).map YVal.s).getD .null
                else .null)
        | _ => .error (.typeError "selector must be a string")
      else pure .null
    else pure .null
  pure (.dict
    [("url", .s url), ("collected_at", .s now),
     ("http_status", match http_status with | some v => .n v | none => .null),
     ("final_price", final_price), ("discount", discount),
     ("discount_flag", .b discount_flag), ("unit_price_text", unit_price_text)])

/-- Everything `run_one` does after the navigation call succeeded:
HTTP-404 check, flow-step execution, soft-404 detection, then legacy
extraction. -/
def afterGoto (page : Page) (ret_cfg : YVal) (url now : String) :
    Except Err YVal × List Effect :=
  let http_status := page.response
  if http_status = some 404 then
    (.error (.notFound "HTTP 404" http_status), [])
  else
    match dictItem ret_cfg "flow" with
    | .error e => (.error e, [])
    | .ok flow =>
      match execute_flow page flow with
      | (.error e, tr) => (.error e, tr)
      | (.ok _, tr) =>
        match detect_not_found_selector page ret_cfg with
        | .error e => (.error e, tr)
        | .ok (some sel) =>
          (.error (.notFound
            ("Soft 404 / product not found (matched: " ++ sel ++ ")") http_status), tr)
        | .ok none =>
          match legacyExtract page ret_cfg url now http_status with
          | .error e => (.error e, tr)
          | .ok out => (.ok out, tr)

/-- `run_one`: scrape one target row. Navigation may time out; when
the configured wait policy is `networkidle` the goto is re-issued once
with `domcontentloaded` and the same timeout, otherwise the timeout
propagates. `now` stands for `datetime.now(UTC).isoformat()`. -/
def run_one (page : Page) (ret_cfg context : YVal) (now : String) :
    Except Err YVal × List Effect :=
  match build_url ret_cfg context with
  | .error e => (.error e, [])
  | .ok url =>
    match dictGetD ret_cfg "goto_wait_until" (.s "domcontentloaded"),
          dictGetD ret_cfg "goto_timeout_ms" (.n 30000) with
    | .ok gw, .ok gt =>
      if page.gotoTimesOut gw then
        if gw.eqS "networkidle" then
          if page.gotoTimesOut (.s "domcontentloaded") then
            (.error (.timeout "Timeout exceeded"),
             [.gotoCall url gw gt, .gotoCall url (.s "domcontentloaded") gt])
          else
            let (r, tr) := afterGoto page ret_cfg url now
            (r, .gotoCall url gw gt :: .gotoCall url (.s "domcontentloaded") gt :: tr)
        else
          (.error (.timeout "Timeout exceeded"), [.gotoCall url gw gt])
      else
        let (r, tr) := afterGoto page ret_cfg url now
        (r, .gotoCall url gw gt :: tr)
    | .error e, _ => (.error e, [])
    | _, .error e => (.error e, [])

/-! ## `src/ppi/io.py` and the `run_pipeline` loop -/

/-- `base_output_row` from `io.py`: the default output row schema. -/
def base_output_row (retailer_id product_id : YVal) : YVal :=
  .dict
    [("retailer_id", retailer_id), ("product_id", product_id),
     ("url", .null), ("collected_at", .null), ("final_price", .null),
     ("discount", .null), ("discount_flag", .b false),
     ("unit_price_text", .null), ("error", .null)]

/-- `row.get(key)` on a CSV target row. -/
def rowGet (row : YVal) (key : String) : YVal :=
  match row with
  | .dict kvs => (lookupKV kvs key).getD .null
  | _ => .null

/-- Python `a or b`. -/
def yOr (a b : YVal) : YVal := if a.truthy then a else b

/-- `retailer_id in retailers`: membership among the mapping keys
under Python equality. -/
def hasRetailer (retailers rid : YVal) : Bool :=
  match retailers with
  | .dict kvs => kvs.any (fun kv => rid.eqS kv.1)
  | _ => false

/-- `retailers[retailer_id]` (only reached when membership holds). -/
def getRetailer (retailers rid : YVal) : YVal :=
  match retailers, rid with
  | .dict kvs, .s r => (lookupKV kvs r).getD .null
  | _, _ => .null

/-- `{**a, **b}`. -/
def mergeY (a b : YVal) : YVal :=
  match a, b with
  | .dict x, .dict y => .dict (mergeKV x y)
  | _, _ => a

/-- The `try` block of the `run_pipeline` per-target loop: the target
sanity checks, then `run_one` against the config of the retailer. -/
def target_result (page : Page) (retailers row : YVal) (now : String) :
    Except Err YVal :=
  let rid := yOr (rowGet row "retailer_id") (yOr (rowGet row "retail_id") (rowGet row "retail"))
  let pid := rowGet row "product_id"
  if !rid.truthy then .error (.valueError "Missing retailer_id in targets.csv row")
  else if !hasRetailer retailers rid then
    .error (.valueError ("Retailer \x27" ++ pyStr rid ++ "\x27 not found in config"))
  else if !pid.truthy then .error (.valueError "Missing product_id in targets.csv row")
  else (run_one page (getRetailer retailers rid) row now).1

/-- One iteration of the `run_pipeline` loop: always produces exactly
one output row, merging the interpreter result on success and mapping
`NotFoundError` to `error = "NOT_FOUND"`, any other exception to
`error = str(exc)`, over the initialized base row. -/
def process_target (page : Page) (retailers : YVal) (now : String) (row : YVal) : YVal :=
  let rid := yOr (rowGet row "retailer_id") (yOr (rowGet row "retail_id") (rowGet row "retail"))
  let pid := rowGet row "product_id"
  let out := base_output_row rid pid
  match target_result page retailers row now with
  | .ok result =>
    mergeY (mergeY out result) (.dict [("retailer_id", rid), ("product_id", pid)])
  | .error (.notFound _ hs) =>
    mergeY out (.dict
      [("http_status", match hs with | some v => .n v | none => .null),
       ("error", .s "NOT_FOUND")])
  | .error e => mergeY out (.dict [("error", .s e.pyMessage)])

/-- The rows `run_pipeline` writes, in target order. `run_pipeline`
does not call `normalize_retailers`: the retailer mapping is used as
loaded. -/
def run_pipeline_rows (page : Page) (retailers : YVal) (targets : List YVal)
    (now : String) : List YVal :=
  targets.map (process_target page retailers now)

/-- Field access on an output row / config mapping. -/
def YVal.getKey (v : YVal) (key : String) : Option YVal :=
  match v with
  | .dict kvs => lookupKV kvs key
  | _ => none

/-! ## Concrete fixtures

Pages and retailer configurations used to instantiate the claims;
the configurations are the ones exercised by the repository own
test-suite. -/

/-- A `goto` step with the usual product-URL template. -/
def gotoStep : YVal :=
  .dict [("action", .s "goto"), ("url", .s "{base_url}/products/{product_id}")]

/-- A plain retailer config: goto, wait, legacy final-price pricing
block (`tests/test_runner.py`). -/
def baseCfg : YVal := .dict
  [("base_url", .s "https://example.com"),
   ("flow", .list [gotoStep,
      .dict [("action", .s "wait_for_selector"), ("selector", .s "body"),
             ("state", .s "attached")]]),
   ("pricing", .dict [("final_price", .dict
      [("selectors_priority", .list [.s "sale-price"])])])]

/-- A legacy-style retailer config declaring all three legacy blocks
and no explicit extract step (`tests/test_config_extract.py`). -/
def legacyCfg : YVal := .dict
  [("base_url", .s "https://example.com"),
   ("flow", .list [gotoStep]),
   ("pricing", .dict [("final_price", .dict
      [("selectors_priority", .list [.s ".price"])])]),
   ("discount", .dict [("selector", .s ".sale"), ("optional", .b true)]),
   ("unit_price", .dict [("selector", .s ".unit"), ("optional", .b true)])]

/-- The extract step `normalize_retailers` synthesizes for `legacyCfg`. -/
def legacySynthStep : YVal :=
  .dict [("action", .s "extract"), ("fields", .dict
    [("final_price", .dict [("selectors_priority", .list [.s ".price"]),
       ("optional", .b true)]),
     ("discount", .dict [("selector", .s ".sale"), ("optional", .b true),
       ("discounted_price_override", .b false)]),
     ("unit_price", .dict [("selector", .s ".unit"), ("optional", .b true)])])]

/-- Flow with a bounded-retry directive, as the repository test
`test_run_one_retries_until_success` submits it. -/
def retryCfg : YVal := .dict
  [("base_url", .s "https://example.com"),
   ("flow", .list
     [.dict [("action", .s "goto"), ("url", .s "{base_url}/p/{product_id}")],
      .dict [("action", .s "retry"), ("limit", .n 3)],
      .dict [("action", .s "extract"), ("fields", .dict
        [("final_price", .dict [("selector", .s ".price"), ("optional", .b true)])])]])]

/-- Flow whose extract step declares a required `final_price` over a
two-selector priority list, as the repository test
`test_extract_required_field_error_message` submits it. -/
def requiredFieldCfg : YVal := .dict
  [("base_url", .s "https://example.com"),
   ("flow", .list
     [.dict [("action", .s "goto"), ("url", .s "{base_url}/p/{product_id}")],
      .dict [("action", .s "extract"), ("fields", .dict
        [("final_price", .dict
          [("selectors_priority", .list [.s ".a", .s ".b"])])])]])]

/-- Legacy config whose only selector list matches nothing on the page. -/
def unresolvedLegacyCfg : YVal := .dict
  [("base_url", .s "https://example.com"),
   ("flow", .list [.dict [("action", .s "goto"), ("url", .s "{base_url}/p/{product_id}")]]),
   ("pricing", .dict [("final_price", .dict
      [("selectors_priority", .list [.s ".a", .s ".b"])])])]

/-- Config with an unsupported action tag
(`test_normalize_retailers_validates_flow_and_actions`). -/
def clickCfg : YVal := .dict
  [("base_url", .s "https://example.com"),
   ("flow", .list [.dict [("action", .s "click")]])]

/-- Config with a soft-not-found selector list. -/
def softCfg : YVal := .dict
  [("base_url", .s "https://example.com"),
   ("flow", .list [gotoStep]),
   ("not_found", .dict [("any_selectors", .list [.s "text=404"])]),
   ("pricing", .dict [("final_price", .dict
      [("selectors_priority", .list [.s "sale-price"])])])]

/-- Config navigating under `networkidle` with an explicit timeout. -/
def niCfg : YVal := .dict
  [("base_url", .s "https://e.com"),
   ("goto_wait_until", .s "networkidle"), ("goto_timeout_ms", .n 1234),
   ("flow", .list [.dict [("action", .s "goto"), ("url", .s "{base_url}/p/{product_id}")]])]

/-- Config navigating under the `load` wait policy. -/
def loadCfg : YVal := .dict
  [("base_url", .s "https://e.com"),
   ("goto_wait_until", .s "load"), ("goto_timeout_ms", .n 777),
   ("flow", .list [.dict [("action", .s "goto"), ("url", .s "{base_url}/p/{product_id}")]])]

/-- An idle page answering HTTP 200 with no matching selectors. -/
def pageEmpty : Page := { response := some 200 }

/-- Page carrying a sale price element. -/
def page200 : Page :=
  { response := some 200,
    locators := [("sale-price", { present := true, innerText := some "₪ 129.90" })] }

/-- Page answering HTTP 404 on navigation. -/
def page404 : Page := { response := some 404 }

/-- HTTP-200 page rendering a not-found marker next to a price. -/
def pageSoft : Page :=
  { response := some 200,
    locators := [("text=404", { present := true, innerText := some "404" }),
                 ("sale-price", { present := true, innerText := some "₪ 59.90" })] }

/-- Page that never becomes `networkidle` but is ready under
`domcontentloaded`. -/
def pageNI : Page :=
  { response := some 200, gotoTimesOut := fun w => w.eqS "networkidle",
    locators := [("sale-price", { present := true, innerText := some "10" })] }

/-- Page timing out under every wait policy. -/
def pageAllTimeout : Page := { response := some 200, gotoTimesOut := fun _ => true }

/-- Page for the C9 scenario: `.missing` matches nothing, `.first`
resolves to empty text, `.second` to `" 44.50 "`. -/
def pageC9 : Page :=
  { locators := [(".first", { present := true, innerText := some "" }),
                 (".second", { present := true, innerText := some " 44.50 " })] }

/-- Extract step declaring both `selector` and `selectors_priority` on
one field (`test_normalize_rejects_invalid_extract_spec`). -/
def brokenCfg : YVal := .dict
  [("base_url", .s "https://example.com"),
   ("flow", .list
     [.dict [("action", .s "goto"), ("url", .s "{base_url}/p/{product_id}")],
      .dict [("action", .s "extract"), ("fields", .dict
        [("final_price", .dict [("selector", .s ".price"),
          ("selectors_priority", .list [.s ".a", .s ".b"])])])]])]

/-!
# Claims
-/

/-- C1: the claim says a `Retry{limit: N}` step makes the interpreter
re-run the remaining steps up to `N` total tries with `tries = k` in
the final row. The code has no retry support at all: on the very flow
the repository retry tests submit, `run_one` executes the steps
once (the trace holds the single navigation only) and fails with
`ValueError("Unsupported action: retry")`, and `normalize_retailers`
rejects `retry` as an unsupported action tag; no `tries` key exists
anywhere in the output row schema. -/
theorem C1_retry_flow_rejected_by_code :
    run_one pageEmpty retryCfg (.dict [("product_id", .s "1")]) "T" =
      (.error (.valueError "Unsupported action: retry"),
       [.gotoCall "https://example.com/p/1" (.s "domcontentloaded") (.n 30000)]) ∧
    normalize_retailers (.dict [("demo", retryCfg)]) =
      .error (.valueError "Retailer \x27demo\x27 has unsupported action \x27retry\x27") ∧
    (base_output_row (.s "demo") (.s "1")).getKey "tries" = none :=
  ⟨rfl, rfl, rfl⟩

/-- C3: the claim says a required field whose whole selector list
resolves to null fails the run with an error naming retailer, field
and selectors. In the code, a flow carrying the extract step fails
earlier with `ValueError("Unsupported action: extract")` (no field or
selector is ever named), and the legacy extraction path never fails on
an unresolved selector list: it returns a successful row with
`final_price = None`. -/
theorem C3_required_field_failure_not_implemented :
    (run_one pageEmpty requiredFieldCfg (.dict [("product_id", .s "123")]) "T").1 =
      .error (.valueError "Unsupported action: extract") ∧
    (run_one pageEmpty unresolvedLegacyCfg (.dict [("product_id", .s "123")]) "T").1 =
      .ok (.dict [("url", .s "https://example.com/p/123"), ("collected_at", .s "T"),
        ("http_status", .n 200), ("final_price", .null), ("discount", .null),
        ("discount_flag", .b false), ("unit_price_text", .null)]) :=
  ⟨rfl, rfl⟩

/-- C4: `normalize_retailers` does raise the claimed configuration
errors, naming the retailer and (for field-level violations) the
field. But `run_pipeline` never invokes it: on a retailer whose flow
holds only an invalid `click` action, the pipeline does not abort
before per-target processing — it emits one row per target with a
per-row error (`No goto step in flow`) and keeps going. -/
theorem C4_config_errors_not_raised_by_pipeline :
    normalize_retailers (.dict [("x", .dict [("flow", .s "nope")])]) =
      .error (.valueError "Retailer \x27x\x27 flow must be a list") ∧
    normalize_retailers (.dict [("x", clickCfg)]) =
      .error (.valueError "Retailer \x27x\x27 has unsupported action \x27click\x27") ∧
    normalize_retailers (.dict [("x", .dict [("flow", .list
        [.dict [("action", .s "extract"), ("fields", .dict [])]])])]) =
      .error (.valueError
        "Retailer \x27x\x27 extract.fields must be a non-empty mapping") ∧
    normalize_retailers (.dict [("broken", brokenCfg)]) =
      .error (.valueError ("Retailer \x27broken\x27 field \x27final_price\x27 " ++
        "must define exactly one of selector or selectors_priority")) ∧
    run_pipeline_rows pageEmpty (.dict [("x", clickCfg)])
        [.dict [("retailer_id", .s "x"), ("product_id", .s "1")],
         .dict [("retailer_id", .s "x"), ("product_id", .s "2")]] "T" =
      [.dict [("retailer_id", .s "x"), ("product_id", .s "1"), ("url", .null),
        ("collected_at", .null), ("final_price", .null), ("discount", .null),
        ("discount_flag", .b false), ("unit_price_text", .null),
        ("error", .s "No \x27goto\x27 step in flow")],
       .dict [("retailer_id", .s "x"), ("product_id", .s "2"), ("url", .null),
        ("collected_at", .null), ("final_price", .null), ("discount", .null),
        ("discount_flag", .b false), ("unit_price_text", .null),
        ("error", .s "No \x27goto\x27 step in flow")]] :=
  ⟨rfl, rfl, rfl, rfl, rfl⟩

/-- C10: `normalize_price_text` maps null and empty input to null, and
any other string to the first numeric token of its comma-stripped,
trimmed text when one exists, or to the trimmed text unchanged
otherwise; in particular `"₪ 1,234.56"` maps to `"1234.56"` and
`"  only text  "` to `"only text"`. -/
theorem C10_normalize_price_text_behaviour :
    normalize_price_text none = none ∧
    normalize_price_text (some "") = none ∧
    normalize_price_text (some "₪ 1,234.56") = some "1234.56" ∧
    normalize_price_text (some "  only text  ") = some "only text" ∧
    ∀ v : String, v ≠ "" →
      (∃ tok,
        numSearch (String.mk ((pyStrip v).toList.filter (· ≠ ','))).toList = some tok ∧
          normalize_price_text (some v) = some (String.mk tok)) ∨
      (numSearch (String.mk ((pyStrip v).toList.filter (· ≠ ','))).toList = none ∧
          normalize_price_text (some v) = some (pyStrip v)) := by
  refine ⟨rfl, rfl, rfl, rfl, ?_⟩
  intro v hv
  have hdef : normalize_price_text (some v) =
      (match numSearch (String.mk ((pyStrip v).toList.filter (· ≠ ','))).toList with
       | some tok => some (String.mk tok)
       | none => some (pyStrip v)) := by
    simp only [normalize_price_text, if_neg hv]
  cases h : numSearch (String.mk ((pyStrip v).toList.filter (· ≠ ','))).toList with
  | some tok =>
    refine Or.inl ⟨tok, rfl, ?_⟩
    rw [hdef, h]
  | none =>
    refine Or.inr ⟨rfl, ?_⟩
    rw [hdef, h]

/-- `YVal.eqS` is equality with the corresponding string value. -/
theorem YVal.eqS_iff (a : YVal) (t : String) : a.eqS t = true ↔ a = .s t := by
  cases a <;> simp [YVal.eqS]

/-- A step `execute_flow` passes over without failing: a skipped
`goto`, a `wait_for_selector` whose driver wait succeeds, or a
`wait_for_timeout`. -/
def stepPasses (page : Page) (step : YVal) : Prop :=
  dictItem step "action" = .ok (.s "goto") ∨
  (∃ sel, dictItem step "action" = .ok (.s "wait_for_selector") ∧
     dictItem step "selector" = .ok sel ∧ page.waitOk sel = true) ∨
  dictItem step "action" = .ok (.s "wait_for_timeout")

/-- Reaching a step whose action is `extract` after a passing prefix
makes the step loop fail with `Unsupported action: extract`. -/
theorem execSteps_extract_error (page : Page) (pre : List YVal) (step : YVal)
    (post : List YVal) (hpre : ∀ s ∈ pre, stepPasses page s)
    (hstep : dictItem step "action" = .ok (.s "extract")) :
    (execSteps page (pre ++ step :: post)).1 =
      .error (.valueError "Unsupported action: extract") := by
  induction pre with
  | nil =>
    simp only [List.nil_append, execSteps, hstep]
    rfl
  | cons s pre' ih =>
    have hs := hpre s (List.mem_cons_self s pre')
    have hrest : ∀ t ∈ pre', stepPasses page t :=
      fun t ht => hpre t (List.mem_cons_of_mem s ht)
    rcases hs with hgoto | ⟨sel, hact, hsel, hwait⟩ | htimeout
    · simp only [List.cons_append, execSteps, hgoto]
      simpa using ih hrest
    · simp only [List.cons_append, execSteps, hact, hsel, hwait]
      simpa using ih hrest
    · simp only [List.cons_append, execSteps, htimeout]
      simpa using ih hrest

/-- A successful pass of the step loop implies the flow holds no
`extract` step. -/
theorem execSteps_ok_no_extract (page : Page) (steps : List YVal) (u : Unit)
    (tr : List Effect) (h : execSteps page steps = (.ok u, tr)) :
    ∀ step ∈ steps, dictItem step "action" ≠ .ok (.s "extract") := by
  induction steps generalizing tr with
  | nil => intro step hstep; cases hstep
  | cons s rest ih =>
    intro step hstep
    rw [execSteps] at h
    rcases List.mem_cons.mp hstep with rfl | hmem
    · intro hact
      rw [hact] at h
      simp [YVal.eqS] at h
    · split at h
      · simp at h
      · split at h
        · exact ih _ h step hmem
        · split at h
          · split at h
            · simp at h
            · split at h
              · rcases hrest : execSteps page rest with ⟨r, tr'⟩
                rw [hrest] at h
                simp only [Prod.mk.injEq] at h
                exact ih tr' (by rw [hrest, h.1]) step hmem
              · simp at h
          · split at h
            · rcases hrest : execSteps page rest with ⟨r, tr'⟩
              rw [hrest] at h
              simp only [Prod.mk.injEq] at h
              exact ih tr' (by rw [hrest, h.1]) step hmem
            · simp at h

/-- A successful `afterGoto` went through a successful flow execution
and produced the legacy extraction record. -/
theorem afterGoto_ok (page : Page) (cfg : YVal) (url now : String) (out : YVal)
    (h : (afterGoto page cfg url now).1 = .ok out) :
    ∃ flow u tr, dictItem cfg "flow" = .ok flow ∧
      execute_flow page flow = (.ok u, tr) ∧
      legacyExtract page cfg url now page.response = .ok out := by
  simp only [afterGoto] at h
  by_cases h404 : page.response = some 404
  · rw [if_pos h404] at h
    simp at h
  · rw [if_neg h404] at h
    split at h
    · simp at h
    · rename_i flow hflow
      split at h
      · simp at h
      · rename_i u tr hexec
        split at h
        · simp at h
        · simp at h
        · split at h
          · simp at h
          · rename_i hnf o hleg
            simp only [Except.ok.injEq] at h
            exact ⟨flow, u, tr, hflow, hexec, by rw [hleg, h]⟩

/-- A successful `run_one` went through a successful URL build and a
successful `afterGoto`. -/
theorem run_one_ok (page : Page) (cfg ctx : YVal) (now : String) (out : YVal)
    (tr : List Effect) (h : run_one page cfg ctx now = (.ok out, tr)) :
    ∃ url, build_url cfg ctx = .ok url ∧ (afterGoto page cfg url now).1 = .ok out := by
  unfold run_one at h
  split at h
  · simp at h
  · rename_i url hurl
    split at h
    · rename_i gw gt hgw hgt
      split at h
      · split at h
        · split at h
          · simp at h
          · rcases hag : afterGoto page cfg url now with ⟨r, tr'⟩
            rw [hag] at h
            simp only [Prod.mk.injEq] at h
            exact ⟨url, hurl, by rw [hag]; exact h.1⟩
        · simp at h
      · rcases hag : afterGoto page cfg url now with ⟨r, tr'⟩
        rw [hag] at h
        simp only [Prod.mk.injEq] at h
        exact ⟨url, hurl, by rw [hag]; exact h.1⟩
    · simp at h
    · simp at h

/-- C2: a flow step whose action is `extract` — including the step
`normalize_retailers` accepts or synthesizes — makes `execute_flow`
raise `ValueError("Unsupported action: extract")` when reached; a flow
execution can only succeed when no `extract` step is present, and a
successful `run_one` result is exactly the legacy
pricing/discount/unit_price extraction record. -/
theorem C2_extract_steps_never_executed :
    (∀ (page : Page) (pre : List YVal) (step : YVal) (post : List YVal),
        (∀ s ∈ pre, stepPasses page s) →
        dictItem step "action" = .ok (.s "extract") →
        (execSteps page (pre ++ step :: post)).1 =
          .error (.valueError "Unsupported action: extract")) ∧
    (∀ (page : Page) (steps : List YVal) (u : Unit) (tr : List Effect),
        execSteps page steps = (.ok u, tr) →
        ∀ step ∈ steps, dictItem step "action" ≠ .ok (.s "extract")) ∧
    (∀ (page : Page) (cfg ctx : YVal) (now : String) (out : YVal) (tr : List Effect),
        run_one page cfg ctx now = (.ok out, tr) →
        ∃ url, build_url cfg ctx = .ok url ∧
          legacyExtract page cfg url now page.response = .ok out) := by
  refine ⟨execSteps_extract_error, execSteps_ok_no_extract, ?_⟩
  intro page cfg ctx now out tr h
  obtain ⟨url, hurl, hag⟩ := run_one_ok page cfg ctx now out tr h
  obtain ⟨flow, u, tr', _, _, hleg⟩ := afterGoto_ok page cfg url now out hag
  exact ⟨url, hurl, hleg⟩

/-- Witness for C2: `normalize_retailers` synthesizes the extract step
for `legacyCfg`, and executing that normalized flow fails with
`Unsupported action: extract`. -/
theorem C2_extract_steps_never_executed_witness :
    normalize_retailers (.dict [("legacy", legacyCfg)]) =
      .ok (.dict [("legacy", .dict
        [("base_url", .s "https://example.com"),
         ("flow", .list [gotoStep, legacySynthStep]),
         ("pricing", .dict [("final_price", .dict
            [("selectors_priority", .list [.s ".price"])])]),
         ("discount", .dict [("selector", .s ".sale"), ("optional", .b true)]),
         ("unit_price", .dict [("selector", .s ".unit"), ("optional", .b true)])])]) ∧
    (execSteps pageEmpty [gotoStep, legacySynthStep]).1 =
      .error (.valueError "Unsupported action: extract") :=
  ⟨rfl,
   C2_extract_steps_never_executed.1 pageEmpty [gotoStep] legacySynthStep []
     (fun s hs => by
       rcases List.mem_singleton.mp hs with rfl
       exact Or.inl rfl)
     rfl⟩

/-- The Selector Resolver resolution as the spec words it (§4.1): null
when no element matches the base selector, otherwise the normalized
reading for the parsed mode. -/
def resolveSpec (page : Page) (raw : String) : Option String :=
  let spec := parse_selector raw
  if (page.locator spec.selector).present then
    normalize_extracted_text (resolveRaw page spec)
  else none

/-- `firstValue` as the spec words it: evaluate each raw selector in
order and return the first resolution that normalizes to a non-null,
non-empty value; exhausting the list yields null. -/
def firstValueSpec (page : Page) (selectors : List String) : Option String :=
  selectors.findSome? (fun raw =>
    match resolveSpec page raw with
    | some v => if v = "" then none else some v
    | none => none)

/-- C9: `first_value` evaluates the selectors in order and returns the
first resolution that normalizes (NBSP collapsed, trimmed) to a
non-null, non-empty value, null when the list is exhausted; over
`[".missing", ".first", ".second"]` with `.missing` matching nothing,
`.first` empty and `.second` rendering `" 44.50 "` it returns
`"44.50"`. -/
theorem C9_first_value_priority_order :
    (∀ (page : Page) (selectors : List String),
        first_value page selectors = firstValueSpec page selectors) ∧
    first_value pageC9 [".missing", ".first", ".second"] = some "44.50" := by
  refine ⟨?_, rfl⟩
  intro page selectors
  induction selectors with
  | nil => rfl
  | cons raw rest ih =>
    simp only [first_value, firstValueSpec, List.findSome?, resolveSpec] at ih ⊢
    cases hp : (page.locator (parse_selector raw).selector).present with
    | false => simpa [hp] using ih
    | true =>
      simp only [hp, Bool.not_true, Bool.false_eq_true, if_false]
      cases hv : normalize_extracted_text (resolveRaw page (parse_selector raw)) with
      | none => simpa using ih
      | some v =>
        by_cases hv0 : v = ""
        · subst hv0; simpa using ih
        · simp [hv0]

set_option maxHeartbeats 2000000 in
/-- Every successful legacy extraction record carries exactly the
seven result keys, in insertion order, and in particular no `error`
key. -/
theorem legacyExtract_ok_shape (page : Page) (cfg : YVal) (url now : String)
    (hs : Option Int) (out : YVal) (h : legacyExtract page cfg url now hs = .ok out) :
    ∃ v1 v2 v3 v4 v5, out = .dict
      [("url", .s url), ("collected_at", .s now), ("http_status", v1),
       ("final_price", v2), ("discount", v3), ("discount_flag", v4),
       ("unit_price_text", v5)] := by
  simp only [legacyExtract, bind, Except.bind, pure, Except.pure] at h
  repeat any_goals split at h
  all_goals
    first
      | (simp only [Except.ok.injEq] at h
         exact ⟨_, _, _, _, _, h.symm⟩)
      | simp at h

/-- A projection-level success of `run_one` is a full-pair success. -/
theorem run_one_fst_ok (page : Page) (cfg ctx : YVal) (now : String) (out : YVal)
    (h : (run_one page cfg ctx now).1 = .ok out) :
    run_one page cfg ctx now = (.ok out, (run_one page cfg ctx now).2) := by
  rw [← h]

/-- A successful per-target `try` block went through `run_one` on the
looked-up retailer config. -/
theorem target_result_ok (page : Page) (retailers row : YVal) (now : String)
    (result : YVal) (h : target_result page retailers row now = .ok result) :
    (run_one page
        (getRetailer retailers
          (yOr (rowGet row "retailer_id")
            (yOr (rowGet row "retail_id") (rowGet row "retail"))))
        row now).1 = .ok result := by
  simp only [target_result] at h
  split at h
  · simp at h
  · split at h
    · simp at h
    · split at h
      · simp at h
      · exact h

/-- A flow whose steps are all valid non-extract actions validates
with `has_extract = false`. -/
theorem checkSteps_no_extract (rid : String) (steps : List YVal)
    (h : ∀ step ∈ steps, ∃ a, dictGet step "action" = .ok (some a) ∧
      (a.eqS "goto" || a.eqS "wait_for_selector" || a.eqS "wait_for_timeout") = true) :
    checkSteps rid steps = .ok false := by
  induction steps with
  | nil => rfl
  | cons s rest ih =>
    obtain ⟨a, hget, hvalid⟩ := h s (List.mem_cons_self s rest)
    have hrest := ih (fun t ht => h t (List.mem_cons_of_mem s ht))
    rcases Bool.or_eq_true_iff.mp hvalid with hv' | hv
    · rcases Bool.or_eq_true_iff.mp hv' with hv | hv
      · rcases (YVal.eqS_iff a "goto").mp hv with rfl
        simp [checkSteps, hget, hrest, YVal.eqS, bind, Except.bind, pure, Except.pure]
      · rcases (YVal.eqS_iff a "wait_for_selector").mp hv with rfl
        simp [checkSteps, hget, hrest, YVal.eqS, bind, Except.bind, pure, Except.pure]
    · rcases (YVal.eqS_iff a "wait_for_timeout").mp hv with rfl
      simp [checkSteps, hget, hrest, YVal.eqS, bind, Except.bind, pure, Except.pure]

/-- Retailer config declaring only a discount block, with explicit
`optional: false` and `discounted_price_override: true`. -/
def discountOnlyCfg : YVal := .dict
  [("base_url", .s "https://example.com"),
   ("flow", .list [gotoStep]),
   ("discount", .dict [("selector", .s ".d"), ("optional", .b false),
     ("discounted_price_override", .b true)])]

/-- Retailer config with an explicit extract step next to a legacy
pricing block (`test_normalize_keeps_explicit_extract_precedence`). -/
def modernCfg : YVal := .dict
  [("base_url", .s "https://example.com"),
   ("flow", .list
     [.dict [("action", .s "goto"), ("url", .s "{base_url}/p/{product_id}")],
      .dict [("action", .s "extract"), ("fields", .dict
        [("final_price", .dict [("selector", .s ".price")])])]]),
   ("pricing", .dict [("final_price", .dict
      [("selectors_priority", .list [.s ".legacy"])])])]

/-- C8: on a retailer config whose valid flow has no extract step and
whose legacy blocks yield a non-empty field set, normalization returns
a copy whose flow is the old flow plus exactly one extract step
appended at the end carrying exactly those fields; when the flow
already holds an extract step the config comes back unchanged, so the
legacy blocks contribute nothing. Concretely: `legacyCfg` gains the
union of its three blocks (`final_price` always optional, `discount`
and `unit_price` defaulting to optional, `discount` carrying
`discounted_price_override`), `discountOnlyCfg` keeps its explicit
`optional: false` / override `true`, and `modernCfg` is unchanged. -/
theorem C8_legacy_extract_synthesis :
    (∀ (rid : String) (kvs : List (String × YVal)) (steps : List YVal)
        (flds : List (String × YVal)),
        lookupKV kvs "flow" = some (.list steps) →
        (∀ step ∈ steps, ∃ a, dictGet step "action" = .ok (some a) ∧
          (a.eqS "goto" || a.eqS "wait_for_selector" ||
            a.eqS "wait_for_timeout") = true) →
        _legacy_extract_fields (.dict kvs) = .ok flds →
        flds ≠ [] →
        normalize_retailers (.dict [(rid, .dict kvs)]) =
          .ok (.dict [(rid, .dict (setKV kvs "flow" (.list (steps ++
            [.dict [("action", .s "extract"), ("fields", .dict flds)]]))))])) ∧
    (∀ (rid : String) (kvs : List (String × YVal)) (steps : List YVal),
        lookupKV kvs "flow" = some (.list steps) →
        checkSteps rid steps = .ok true →
        normalize_retailers (.dict [(rid, .dict kvs)]) =
          .ok (.dict [(rid, .dict kvs)])) ∧
    normalize_retailers (.dict [("legacy", legacyCfg)]) =
      .ok (.dict [("legacy", .dict
        [("base_url", .s "https://example.com"),
         ("flow", .list [gotoStep, legacySynthStep]),
         ("pricing", .dict [("final_price", .dict
            [("selectors_priority", .list [.s ".price"])])]),
         ("discount", .dict [("selector", .s ".sale"), ("optional", .b true)]),
         ("unit_price", .dict [("selector", .s ".unit"), ("optional", .b true)])])]) ∧
    normalize_retailers (.dict [("d", discountOnlyCfg)]) =
      .ok (.dict [("d", .dict
        [("base_url", .s "https://example.com"),
         ("flow", .list [gotoStep,
           .dict [("action", .s "extract"), ("fields", .dict
             [("discount", .dict [("selector", .s ".d"), ("optional", .b false),
               ("discounted_price_override", .b true)])])]]),
         ("discount", .dict [("selector", .s ".d"), ("optional", .b false),
           ("discounted_price_override", .b true)])])]) ∧
    normalize_retailers (.dict [("modern", modernCfg)]) = .ok (.dict [("modern", modernCfg)]) := by
  refine ⟨?_, ?_, rfl, rfl, rfl⟩
  · intro rid kvs steps flds hflow hvalid hleg hne
    have hck := checkSteps_no_extract rid steps hvalid
    have hemp : flds.isEmpty = false := by
      cases flds with
      | nil => exact absurd rfl hne
      | cons a l => rfl
    simp [normalize_retailers, normalize_retailers.normalizeAll, normalizeOne,
      dictGet, hflow, hck, hleg, hemp, bind, Except.bind, pure, Except.pure,
      Except.map]
  · intro rid kvs steps hflow hck
    simp [normalize_retailers, normalize_retailers.normalizeAll, normalizeOne,
      dictGet, hflow, hck, bind, Except.bind, pure, Except.pure, Except.map]

/-- Witness for C8: the general synthesis conjunct applied to
`legacyCfg`, and the explicit-extract conjunct applied to `modernCfg`. -/
theorem C8_legacy_extract_synthesis_witness :
    normalize_retailers (.dict [("legacy", .dict
      [("base_url", .s "https://example.com"),
       ("flow", .list [gotoStep]),
       ("pricing", .dict [("final_price", .dict
          [("selectors_priority", .list [.s ".price"])])]),
       ("discount", .dict [("selector", .s ".sale"), ("optional", .b true)]),
       ("unit_price", .dict [("selector", .s ".unit"), ("optional", .b true)])])]) =
      .ok (.dict [("legacy", .dict (setKV
        [("base_url", .s "https://example.com"),
         ("flow", .list [gotoStep]),
         ("pricing", .dict [("final_price", .dict
            [("selectors_priority", .list [.s ".price"])])]),
         ("discount", .dict [("selector", .s ".sale"), ("optional", .b true)]),
         ("unit_price", .dict [("selector", .s ".unit"), ("optional", .b true)])]
        "flow" (.list ([gotoStep] ++
          [.dict [("action", .s "extract"), ("fields", .dict
            [("final_price", .dict [("selectors_priority", .list [.s ".price"]),
               ("optional", .b true)]),
             ("discount", .dict [("selector", .s ".sale"), ("optional", .b true),
               ("discounted_price_override", .b false)]),
             ("unit_price", .dict [("selector", .s ".unit"),
               ("optional", .b true)])])]]))))]) ∧
    normalize_retailers (.dict [("modern", .dict
      [("base_url", .s "https://example.com"),
       ("flow", .list
         [.dict [("action", .s "goto"), ("url", .s "{base_url}/p/{product_id}")],
          .dict [("action", .s "extract"), ("fields", .dict
            [("final_price", .dict [("selector", .s ".price")])])]]),
       ("pricing", .dict [("final_price", .dict
          [("selectors_priority", .list [.s ".legacy"])])])])]) =
      .ok (.dict [("modern", .dict
        [("base_url", .s "https://example.com"),
         ("flow", .list
           [.dict [("action", .s "goto"), ("url", .s "{base_url}/p/{product_id}")],
            .dict [("action", .s "extract"), ("fields", .dict
              [("final_price", .dict [("selector", .s ".price")])])]]),
         ("pricing", .dict [("final_price", .dict
            [("selectors_priority", .list [.s ".legacy"])])])])]) :=
  ⟨C8_legacy_extract_synthesis.1 "legacy"
      [("base_url", .s "https://example.com"),
       ("flow", .list [gotoStep]),
       ("pricing", .dict [("final_price", .dict
          [("selectors_priority", .list [.s ".price"])])]),
       ("discount", .dict [("selector", .s ".sale"), ("optional", .b true)]),
       ("unit_price", .dict [("selector", .s ".unit"), ("optional", .b true)])]
      [gotoStep]
      [("final_price", .dict [("selectors_priority", .list [.s ".price"]),
         ("optional", .b true)]),
       ("discount", .dict [("selector", .s ".sale"), ("optional", .b true),
         ("discounted_price_override", .b false)]),
       ("unit_price", .dict [("selector", .s ".unit"), ("optional", .b true)])]
      rfl
      (fun s hs => by
        rcases List.mem_singleton.mp hs with rfl
        exact ⟨.s "goto", rfl, rfl⟩)
      rfl
      (by simp),
   C8_legacy_extract_synthesis.2.1 "modern"
      [("base_url", .s "https://example.com"),
       ("flow", .list
         [.dict [("action", .s "goto"), ("url", .s "{base_url}/p/{product_id}")],
          .dict [("action", .s "extract"), ("fields", .dict
            [("final_price", .dict [("selector", .s ".price")])])]]),
       ("pricing", .dict [("final_price", .dict
          [("selectors_priority", .list [.s ".legacy"])])])]
      [.dict [("action", .s "goto"), ("url", .s "{base_url}/p/{product_id}")],
       .dict [("action", .s "extract"), ("fields", .dict
         [("final_price", .dict [("selector", .s ".price")])])]]
      rfl rfl⟩

/-- C7: the pipeline writes exactly one output row per input target.
On success the row keeps `error` at the initialized null (the
interpreter result carries no error key); on any per-target failure
the row keeps the initialized null/false extraction values with
`error` set — `"NOT_FOUND"` for a `NotFoundError`, the exception
message otherwise — and the batch goes on, no target dropped. -/
theorem C7_exactly_one_row_per_target :
    (∀ (page : Page) (retailers : YVal) (targets : List YVal) (now : String),
        (run_pipeline_rows page retailers targets now).length = targets.length) ∧
    (∀ (page : Page) (retailers row : YVal) (now : String) (result : YVal),
        target_result page retailers row now = .ok result →
        (process_target page retailers now row).getKey "error" = some .null) ∧
    (∀ (page : Page) (retailers row : YVal) (now : String) (e : Err),
        target_result page retailers row now = .error e →
        (process_target page retailers now row).getKey "url" = some .null ∧
        (process_target page retailers now row).getKey "collected_at" = some .null ∧
        (process_target page retailers now row).getKey "final_price" = some .null ∧
        (process_target page retailers now row).getKey "discount" = some .null ∧
        (process_target page retailers now row).getKey "discount_flag"
            = some (.b false) ∧
        (process_target page retailers now row).getKey "unit_price_text" = some .null ∧
        ((∃ m hs, e = .notFound m hs ∧
            (process_target page retailers now row).getKey "error"
              = some (.s "NOT_FOUND")) ∨
          (process_target page retailers now row).getKey "error"
            = some (.s e.pyMessage))) := by
  refine ⟨?_, ?_, ?_⟩
  · intro page retailers targets now
    simp [run_pipeline_rows]
  · intro page retailers row now result htr
    have h1 := target_result_ok page retailers row now result htr
    have h2 := run_one_fst_ok _ _ _ _ _ h1
    obtain ⟨url, _, hag⟩ := run_one_ok _ _ _ _ _ _ h2
    obtain ⟨flow, u, tr', _, _, hleg⟩ := afterGoto_ok _ _ _ _ _ hag
    obtain ⟨v1, v2, v3, v4, v5, hshape⟩ := legacyExtract_ok_shape _ _ _ _ _ _ hleg
    simp only [process_target, htr, hshape]
    rfl
  · intro page retailers row now e htr
    cases e with
    | notFound m hs =>
      simp only [process_target, htr]
      exact ⟨rfl, rfl, rfl, rfl, rfl, rfl, Or.inl ⟨m, hs, rfl, rfl⟩⟩
    | valueError m =>
      simp only [process_target, htr]
      exact ⟨rfl, rfl, rfl, rfl, rfl, rfl, Or.inr rfl⟩
    | keyError k =>
      simp only [process_target, htr]
      exact ⟨rfl, rfl, rfl, rfl, rfl, rfl, Or.inr rfl⟩
    | typeError m =>
      simp only [process_target, htr]
      exact ⟨rfl, rfl, rfl, rfl, rfl, rfl, Or.inr rfl⟩
    | timeout m =>
      simp only [process_target, htr]
      exact ⟨rfl, rfl, rfl, rfl, rfl, rfl, Or.inr rfl⟩

/-- Witness for C7: a two-target batch (one succeeding, one with an
unknown retailer) produces two rows; the success row has a null
error, the failure row keeps the initialized fields with the error
message set. -/
theorem C7_exactly_one_row_per_target_witness :
    (run_pipeline_rows page200 (.dict [("demo", baseCfg)])
        [.dict [("retailer_id", .s "demo"), ("product_id", .s "111")],
         .dict [("retailer_id", .s "miss"), ("product_id", .s "1")]] "T").length = 2 ∧
    (process_target page200 (.dict [("demo", baseCfg)]) "T"
        (.dict [("retailer_id", .s "demo"), ("product_id", .s "111")])).getKey "error"
      = some .null ∧
    ((process_target page200 (.dict [("demo", baseCfg)]) "T"
        (.dict [("retailer_id", .s "miss"), ("product_id", .s "1")])).getKey "url"
          = some .null ∧
      (process_target page200 (.dict [("demo", baseCfg)]) "T"
        (.dict [("retailer_id", .s "miss"), ("product_id", .s "1")])).getKey
          "collected_at" = some .null ∧
      (process_target page200 (.dict [("demo", baseCfg)]) "T"
        (.dict [("retailer_id", .s "miss"), ("product_id", .s "1")])).getKey
          "final_price" = some .null ∧
      (process_target page200 (.dict [("demo", baseCfg)]) "T"
        (.dict [("retailer_id", .s "miss"), ("product_id", .s "1")])).getKey
          "discount" = some .null ∧
      (process_target page200 (.dict [("demo", baseCfg)]) "T"
        (.dict [("retailer_id", .s "miss"), ("product_id", .s "1")])).getKey
          "discount_flag" = some (.b false) ∧
      (process_target page200 (.dict [("demo", baseCfg)]) "T"
        (.dict [("retailer_id", .s "miss"), ("product_id", .s "1")])).getKey
          "unit_price_text" = some .null ∧
      ((∃ m hs, Err.valueError "Retailer \x27miss\x27 not found in config"
            = .notFound m hs ∧
          (process_target page200 (.dict [("demo", baseCfg)]) "T"
            (.dict [("retailer_id", .s "miss"), ("product_id", .s "1")])).getKey
              "error" = some (.s "NOT_FOUND")) ∨
        (process_target page200 (.dict [("demo", baseCfg)]) "T"
          (.dict [("retailer_id", .s "miss"), ("product_id", .s "1")])).getKey
            "error" = some (.s (Err.valueError
              "Retailer \x27miss\x27 not found in config").pyMessage))) :=
  ⟨C7_exactly_one_row_per_target.1 page200 (.dict [("demo", baseCfg)])
      [.dict [("retailer_id", .s "demo"), ("product_id", .s "111")],
       .dict [("retailer_id", .s "miss"), ("product_id", .s "1")]] "T",
   C7_exactly_one_row_per_target.2.1 page200 (.dict [("demo", baseCfg)])
      (.dict [("retailer_id", .s "demo"), ("product_id", .s "111")]) "T"
      (.dict [("url", .s "https://example.com/products/111"), ("collected_at", .s "T"),
        ("http_status", .n 200), ("final_price", .s "129.90"), ("discount", .null),
        ("discount_flag", .b false), ("unit_price_text", .null)]) rfl,
   C7_exactly_one_row_per_target.2.2 page200 (.dict [("demo", baseCfg)])
      (.dict [("retailer_id", .s "miss"), ("product_id", .s "1")]) "T"
      (.valueError "Retailer \x27miss\x27 not found in config") rfl⟩

/-- C5: a navigation answering HTTP 404 raises `NotFoundError` before
any flow step executes (the driver trace holds the single navigation
only); a successful step execution followed by a matching not-found
selector raises `NotFoundError` as well; and in the pipeline loop a
`NotFoundError` becomes a row with `error = "NOT_FOUND"` while
processing continues with the remaining targets. -/
theorem C5_not_found_short_circuits :
    (∀ (page : Page) (cfg ctx : YVal) (now url : String) (gw gt : YVal),
        build_url cfg ctx = .ok url →
        dictGetD cfg "goto_wait_until" (.s "domcontentloaded") = .ok gw →
        dictGetD cfg "goto_timeout_ms" (.n 30000) = .ok gt →
        page.gotoTimesOut gw = false →
        page.response = some 404 →
        run_one page cfg ctx now =
          (.error (.notFound "HTTP 404" (some 404)), [.gotoCall url gw gt])) ∧
    (∀ (page : Page) (cfg : YVal) (url now : String) (flow : YVal) (u : Unit)
        (tr : List Effect) (sel : String),
        page.response ≠ some 404 →
        dictItem cfg "flow" = .ok flow →
        execute_flow page flow = (.ok u, tr) →
        detect_not_found_selector page cfg = .ok (some sel) →
        afterGoto page cfg url now =
          (.error (.notFound ("Soft 404 / product not found (matched: " ++ sel ++ ")")
            page.response), tr)) ∧
    (∀ (page : Page) (retailers row : YVal) (now : String) (rest : List YVal)
        (m : String) (hs : Option Int),
        target_result page retailers row now = .error (.notFound m hs) →
        (process_target page retailers now row).getKey "error" = some (.s "NOT_FOUND") ∧
        run_pipeline_rows page retailers (row :: rest) now =
          process_target page retailers now row ::
            run_pipeline_rows page retailers rest now) := by
  refine ⟨?_, ?_, ?_⟩
  · intro page cfg ctx now url gw gt hurl hgw hgt hto h404
    simp only [run_one, hurl, hgw, hgt, hto, afterGoto, h404, Bool.false_eq_true,
      if_false, if_true]
  · intro page cfg url now flow u tr sel h404 hflow hexec hdet
    simp only [afterGoto, if_neg h404, hflow, hexec, hdet]
  · intro page retailers row now rest m hs htr
    refine ⟨?_, rfl⟩
    simp only [process_target, htr]
    rfl

/-- Witness for C5: HTTP 404 on `page404`, soft 404 on `pageSoft`, and
the pipeline row for a 404 target. -/
theorem C5_not_found_short_circuits_witness :
    run_one page404 baseCfg (.dict [("product_id", .s "111")]) "T" =
      (.error (.notFound "HTTP 404" (some 404)),
       [.gotoCall "https://example.com/products/111" (.s "domcontentloaded") (.n 30000)]) ∧
    afterGoto pageSoft softCfg "https://example.com/products/bad" "T" =
      (.error (.notFound "Soft 404 / product not found (matched: text=404)" (some 200)),
       []) ∧
    ((process_target page404 (.dict [("demo", baseCfg)]) "T"
        (.dict [("retailer_id", .s "demo"), ("product_id", .s "111")])).getKey "error"
          = some (.s "NOT_FOUND") ∧
      run_pipeline_rows page404 (.dict [("demo", baseCfg)])
          [.dict [("retailer_id", .s "demo"), ("product_id", .s "111")]] "T" =
        process_target page404 (.dict [("demo", baseCfg)]) "T"
            (.dict [("retailer_id", .s "demo"), ("product_id", .s "111")]) ::
          run_pipeline_rows page404 (.dict [("demo", baseCfg)]) [] "T") :=
  ⟨C5_not_found_short_circuits.1 page404 baseCfg (.dict [("product_id", .s "111")])
      "T" "https://example.com/products/111" (.s "domcontentloaded") (.n 30000)
      rfl rfl rfl rfl rfl,
   C5_not_found_short_circuits.2.1 pageSoft softCfg "https://example.com/products/bad"
      "T" (.list [gotoStep]) () [] "text=404" (by decide) rfl rfl rfl,
   C5_not_found_short_circuits.2.2 page404 (.dict [("demo", baseCfg)])
      (.dict [("retailer_id", .s "demo"), ("product_id", .s "111")]) "T" [] "HTTP 404"
      (some 404) rfl⟩

/-- C6: a `networkidle` navigation that times out triggers exactly one
fallback navigation to the same URL under `domcontentloaded` with the
same timeout and then the run resumes with everything after the goto
(`afterGoto`); a timeout under any other wait policy propagates as a
failure after the single navigation attempt. -/
theorem C6_networkidle_fallback_once :
    (∀ (page : Page) (cfg ctx : YVal) (now url : String) (gt : YVal),
        build_url cfg ctx = .ok url →
        dictGetD cfg "goto_wait_until" (.s "domcontentloaded") = .ok (.s "networkidle") →
        dictGetD cfg "goto_timeout_ms" (.n 30000) = .ok gt →
        page.gotoTimesOut (.s "networkidle") = true →
        page.gotoTimesOut (.s "domcontentloaded") = false →
        run_one page cfg ctx now =
          ((afterGoto page cfg url now).1,
           .gotoCall url (.s "networkidle") gt ::
             .gotoCall url (.s "domcontentloaded") gt ::
             (afterGoto page cfg url now).2)) ∧
    (∀ (page : Page) (cfg ctx : YVal) (now url : String) (gw gt : YVal),
        build_url cfg ctx = .ok url →
        dictGetD cfg "goto_wait_until" (.s "domcontentloaded") = .ok gw →
        dictGetD cfg "goto_timeout_ms" (.n 30000) = .ok gt →
        gw.eqS "networkidle" = false →
        page.gotoTimesOut gw = true →
        run_one page cfg ctx now =
          (.error (.timeout "Timeout exceeded"), [.gotoCall url gw gt])) := by
  constructor
  · intro page cfg ctx now url gt hurl hgw hgt ht1 ht2
    simp only [run_one, hurl, hgw, hgt, ht1, ht2, YVal.eqS, Bool.false_eq_true,
      if_true, if_false]
    rfl
  · intro page cfg ctx now url gw gt hurl hgw hgt hne ht
    simp only [run_one, hurl, hgw, hgt, ht, hne, Bool.false_eq_true, if_true, if_false]

/-- Witness for C6: the fallback on `pageNI` under `niCfg`, and the
propagated timeout on `pageAllTimeout` under the `load` policy. -/
theorem C6_networkidle_fallback_once_witness :
    run_one pageNI niCfg (.dict [("product_id", .s "1")]) "T" =
      ((afterGoto pageNI niCfg "https://e.com/p/1" "T").1,
       .gotoCall "https://e.com/p/1" (.s "networkidle") (.n 1234) ::
         .gotoCall "https://e.com/p/1" (.s "domcontentloaded") (.n 1234) ::
         (afterGoto pageNI niCfg "https://e.com/p/1" "T").2) ∧
    run_one pageAllTimeout loadCfg (.dict [("product_id", .s "1")]) "T" =
      (.error (.timeout "Timeout exceeded"),
       [.gotoCall "https://e.com/p/1" (.s "load") (.n 777)]) :=
  ⟨C6_networkidle_fallback_once.1 pageNI niCfg (.dict [("product_id", .s "1")])
      "T" "https://e.com/p/1" (.n 1234) rfl rfl rfl rfl rfl,
   C6_networkidle_fallback_once.2 pageAllTimeout loadCfg (.dict [("product_id", .s "1")])
      "T" "https://e.com/p/1" (.s "load") (.n 777) rfl rfl rfl rfl rfl⟩

/-- Witness for C10 at the concrete input `"₪ 1,234.56"`. -/
theorem C10_normalize_price_text_behaviour_witness :
    (∃ tok,
      numSearch (String.mk ((pyStrip "₪ 1,234.56").toList.filter (· ≠ ','))).toList
          = some tok ∧
        normalize_price_text (some "₪ 1,234.56") = some (String.mk tok)) ∨
    (numSearch (String.mk ((pyStrip "₪ 1,234.56").toList.filter (· ≠ ','))).toList
        = none ∧
      normalize_price_text (some "₪ 1,234.56") = some (pyStrip "₪ 1,234.56")) :=
  C10_normalize_price_text_behaviour.2.2.2.2 "₪ 1,234.56" (by decide)

end PPI
